import Mathlib

/-!
Verification of the Heart-Rate-Monitor signal pipeline and HRV state machine.

Shallow embedding conventions:
* Python floats are modelled as exact rationals (`ℚ`).  The properties settled
  here are threshold comparisons and closed-form identities in which binary
  floating-point rounding is not load-bearing.
* The scipy calls `butter` + `sosfiltfilt` + `find_peaks` (external library
  code, transcendental filter coefficients) are abstracted into a single
  peak-detector parameter `d : List ℚ → List ℕ` mapping a raw IR window to
  the list of detected peak indices.  Everything downstream of peak detection
  is translated literally from `src/max30102/hrcalc.py`.
* `np.sqrt` (an irrational operation) is abstracted into a parameter
  `sq : ℚ → ℚ`; no claim settled here depends on the numeric value of the
  RMSSD field it feeds.
* `np.round(x, k)` is modelled by rounding `x * 10^k` to the nearest integer;
  exact ties do not arise in any value this development evaluates.
* The monitor thread (`heartrate_monitor.py`) is modelled as a step function
  on an explicit state record; one `cycle` action is one iteration of the
  `run_sensor` outer loop with a nonempty batch of sensor samples, with the
  `time.time()` reads of that iteration modelled by the action's `now` field.
-/

/-! ## Numeric helpers mirroring the numpy operations used by the source -/

/-- Arithmetic mean, `np.mean` (the source only applies it to nonempty data). -/
def npMean (l : List ℚ) : ℚ := l.sum / (l.length : ℚ)

/-- Insert into an ascending-sorted list. -/
def insertSorted (x : ℚ) : List ℚ → List ℚ
  | [] => [x]
  | y :: ys => if x ≤ y then x :: y :: ys else y :: insertSorted x ys

/-- Ascending sort, as performed internally by `np.median`. -/
def sortAsc (l : List ℚ) : List ℚ := l.foldr insertSorted []

/-- `np.median`: middle element of the sorted data, or the mean of the two
middle elements for even length.  (The source never takes a median of empty
data; the `0` default is unreachable there.) -/
def npMedian (l : List ℚ) : ℚ :=
  if l.length = 0 then 0
  else if l.length % 2 = 1 then (sortAsc l).getD (l.length / 2) 0
  else ((sortAsc l).getD (l.length / 2 - 1) 0 + (sortAsc l).getD (l.length / 2) 0) / 2

/-- Python `int(...)` applied to a float: truncation toward zero. -/
def pyInt (q : ℚ) : ℤ := if 0 ≤ q then ⌊q⌋ else ⌈q⌉

/-- `np.min` over a nonempty segment (`0` default unreachable in the source). -/
def listMin (l : List ℚ) : ℚ := l.foldl min (l.headD 0)

/-- `np.max` over a nonempty segment (`0` default unreachable in the source). -/
def listMax (l : List ℚ) : ℚ := l.foldl max (l.headD 0)

/-- `round(x, k)` / `np.round` to `k` decimal places.  Python rounds exact
ties to even; no exact tie arises in any value evaluated in this file. -/
def roundTo (k : ℕ) (q : ℚ) : ℚ := ((round (q * 10 ^ k) : ℤ) : ℚ) / 10 ^ k

/-- `np.diff` on a list of indices. -/
def natDiffs (l : List ℕ) : List ℤ := List.zipWith (fun a b => (b : ℤ) - (a : ℤ)) l l.tail

/-- `np.diff` on rationals (successive differences). -/
def succDiffs (l : List ℚ) : List ℚ := List.zipWith (fun a b => b - a) l l.tail

/-! ## hrcalc.py -/

/-- `SAMPLE_FREQ = 25`. -/
def SAMPLE_FREQ : ℚ := 25

/-- HRV metrics dictionary returned by `calc_hrv_metrics` /
`calc_hrv_from_buffer` (keys rmssd, pnn50, mean_hr, num_intervals, valid). -/
structure HrvMetrics where
  rmssd : ℚ
  pnn50 : ℚ
  mean_hr : ℚ
  num_intervals : ℕ
  valid : Bool
deriving DecidableEq, Repr

/-- The sentinel dictionary returned on the invalid paths of
`calc_hrv_metrics` and `calc_hrv_from_buffer`. -/
def invalidHrv : HrvMetrics :=
  { rmssd := -999, pnn50 := -999, mean_hr := -999, num_intervals := 0, valid := false }

/-- RR intervals in milliseconds: `np.diff(peaks) / sample_freq * 1000`. -/
def rrIntervalsMs (peaks : List ℕ) (freq : ℚ) : List ℚ :=
  (natDiffs peaks).map (fun z => (z : ℚ) / freq * 1000)

/-- Outlier-filtered RR intervals: keep those in `[300, 2000]` ms. -/
def filteredRR (peaks : List ℕ) (freq : ℚ) : List ℚ :=
  (rrIntervalsMs peaks freq).filter (fun x => 300 ≤ x ∧ x ≤ 2000)

/-- `pnn50 = (nn50 / len(successive_diffs)) * 100 if len > 0 else 0`. -/
def pnn50Val (rr : List ℚ) : ℚ :=
  if 0 < (succDiffs rr).length then
    (((succDiffs rr).filter (fun x => 50 < |x|)).length : ℚ) / ((succDiffs rr).length : ℚ) * 100
  else 0

/-- `calc_hrv_metrics(peaks, sample_freq)` (hrcalc.py lines 111-168).
`sq` abstracts `np.sqrt`. -/
def calc_hrv_metrics (sq : ℚ → ℚ) (peaks : List ℕ) (freq : ℚ) : HrvMetrics :=
  if peaks.length < 3 then invalidHrv
  else if (filteredRR peaks freq).length < 2 then invalidHrv
  else
    { rmssd := roundTo 2 (sq (npMean ((succDiffs (filteredRR peaks freq)).map (fun x => x ^ 2)))),
      pnn50 := roundTo 2 (pnn50Val (filteredRR peaks freq)),
      mean_hr := roundTo 1 (60000 / npMean (filteredRR peaks freq)),
      num_intervals := (filteredRR peaks freq).length,
      valid := true }

/-- `calc_hrv_from_buffer(ir_buffer, sample_freq)` (hrcalc.py lines 171-204):
guard on buffer length, then bandpass filter + peak detection (abstracted
into `d`) followed by `calc_hrv_metrics`. -/
def calc_hrv_from_buffer (sq : ℚ → ℚ) (d : List ℚ → List ℕ) (buf : List ℚ) (freq : ℚ) : HrvMetrics :=
  if buf.length < 750 then invalidHrv
  else calc_hrv_metrics sq (d buf) freq

/-- Inter-peak intervals in seconds: `np.diff(peaks) / SAMPLE_FREQ`. -/
def peakIntervals (peaks : List ℕ) : List ℚ :=
  (natDiffs peaks).map (fun z => (z : ℚ) / SAMPLE_FREQ)

/-- The HR section of `calc_hr_and_spo2` (hrcalc.py lines 44-60): requires at
least two peaks and a positive median interval, heart rate is
`int(60 / median_interval)` (Python truncation). -/
def hrFromPeaks (peaks : List ℕ) : ℤ × Bool :=
  if 2 ≤ peaks.length then
    if 0 < npMedian (peakIntervals peaks) then
      (pyInt (60 / npMedian (peakIntervals peaks)), true)
    else (-999, false)
  else (-999, false)

/-- One SpO2 ratio for a consecutive peak pair (hrcalc.py lines 70-92):
requires an index gap above 2; AC = max-min and DC = mean over the raw
sub-segment of each channel; skipped unless `ir_dc`, `red_dc`, `ir_ac` are
all nonzero. -/
def segRatioAt (ir red : List ℚ) (p : ℕ × ℕ) : Option ℚ :=
  if 2 < (p.2 : ℤ) - (p.1 : ℤ) then
    let irSeg := (ir.drop p.1).take (p.2 - p.1)
    let redSeg := (red.drop p.1).take (p.2 - p.1)
    let ir_ac := listMax irSeg - listMin irSeg
    let ir_dc := npMean irSeg
    let red_ac := listMax redSeg - listMin redSeg
    let red_dc := npMean redSeg
    if ir_dc ≠ 0 ∧ red_dc ≠ 0 ∧ ir_ac ≠ 0 then some ((red_ac / red_dc) / (ir_ac / ir_dc))
    else none
  else none

/-- All SpO2 ratios collected over consecutive peak pairs. -/
def spo2Ratios (peaks : List ℕ) (ir red : List ℚ) : List ℚ :=
  (peaks.zip peaks.tail).filterMap (segRatioAt ir red)

/-- The scaled averaged ratio `ratio_avg * 100` (hrcalc.py line 98). -/
def scaledRatioAvg (peaks : List ℕ) (ir red : List ℚ) : ℚ :=
  npMean (spo2Ratios peaks ir red) * 100

/-- The quadratic calibration formula (hrcalc.py lines 102-103):
`-45.060 * R^2 / 10000 + 30.054 * R / 100 + 94.845`. -/
def spo2Poly (x : ℚ) : ℚ :=
  -(45060 / 1000 : ℚ) * x ^ 2 / 10000 + (30054 / 1000) * x / 100 + 94845 / 1000

/-- The SpO2 section of `calc_hr_and_spo2` (hrcalc.py lines 62-106), producing
`(spo2, spo2_valid, hrv_metrics)`; `hrv_metrics` is `none` for the empty
dictionary `{}`. -/
def spo2FromWindow (sq : ℚ → ℚ) (peaks : List ℕ) (ir red : List ℚ) : ℚ × Bool × Option HrvMetrics :=
  if 2 ≤ peaks.length then
    if spo2Ratios peaks ir red = [] then (-999, false, none)
    else if 2 < scaledRatioAvg peaks ir red ∧ scaledRatioAvg peaks ir red < 184 then
      (spo2Poly (scaledRatioAvg peaks ir red), true, some (calc_hrv_metrics sq peaks SAMPLE_FREQ))
    else (-999, false, some (calc_hrv_metrics sq peaks SAMPLE_FREQ))
  else (-999, false, none)

/-- The full record of values returned by `calc_hr_and_spo2` at line 108. -/
structure CalcResult where
  hr : ℤ
  hr_valid : Bool
  spo2 : ℚ
  spo2_valid : Bool
  hrv : Option HrvMetrics
deriving DecidableEq, Repr

/-- `calc_hr_and_spo2(ir_data, red_data)` (hrcalc.py lines 15-108) downstream
of the filter + peak-detection stage `d`. -/
def calc_hr_and_spo2 (sq : ℚ → ℚ) (d : List ℚ → List ℕ) (ir red : List ℚ) : CalcResult :=
  { hr := (hrFromPeaks (d ir)).1,
    hr_valid := (hrFromPeaks (d ir)).2,
    spo2 := (spo2FromWindow sq (d ir) ir red).1,
    spo2_valid := (spo2FromWindow sq (d ir) ir red).2.1,
    hrv := (spo2FromWindow sq (d ir) ir red).2.2 }

/-! ## The Python return tuple of calc_hr_and_spo2 (for claim C1) -/

/-- A Python value as it appears in the return tuple of `calc_hr_and_spo2`. -/
inductive PyVal where
  | int (n : ℤ)
  | bool (b : Bool)
  | rat (q : ℚ)
  | dict (m : Option HrvMetrics)
deriving DecidableEq

/-- The tuple built by `return hr, hr_valid, spo2, spo2_valid, hrv_metrics`
(hrcalc.py line 108), as the flat sequence of its components. -/
def calcHrSpo2Tuple (sq : ℚ → ℚ) (d : List ℚ → List ℕ) (ir red : List ℚ) : List PyVal :=
  [PyVal.int (calc_hr_and_spo2 sq d ir red).hr,
   PyVal.bool (calc_hr_and_spo2 sq d ir red).hr_valid,
   PyVal.rat (calc_hr_and_spo2 sq d ir red).spo2,
   PyVal.bool (calc_hr_and_spo2 sq d ir red).spo2_valid,
   PyVal.dict (calc_hr_and_spo2 sq d ir red).hrv]

/-- Python tuple unpacking into four names (`a, b, c, d = t`,
heartrate_monitor.py line 74): succeeds exactly on length-4 tuples,
otherwise raises ValueError (modelled as `none`). -/
def pyUnpack4 (t : List PyVal) : Option (PyVal × PyVal × PyVal × PyVal) :=
  match t with
  | [a, b, c, d] => some (a, b, c, d)
  | _ => none

/-! ## heartrate_monitor.py: state record and step functions -/

/-- The HRV state machine states (`HRV_IDLE`, `HRV_COLLECTING`, `HRV_READY`). -/
inductive HrvState where
  | idle
  | collecting
  | ready
deriving DecidableEq, Repr

/-- `HRV_DURATION = 60`. -/
def HRV_DURATION : ℚ := 60

/-- `HRV_MIN_STABLE_TIME = 2`. -/
def HRV_MIN_STABLE_TIME : ℚ := 2

/-- `FINGER_DETECTION_THRESHOLD = 50000`. -/
def FINGER_DETECTION_THRESHOLD : ℚ := 50000

/-- The mutable fields of `HeartRateMonitor` touched by the acquisition loop
and its API, together with the loop-local smoothing history `bpms`.
(`latest_ir_value` is written but never read by the code the claims cover,
so it is omitted.) -/
structure MonitorState where
  bpm : ℚ
  spo : ℚ
  hrv_state : HrvState
  hrv_buffer_ir : List ℚ
  hrv_start_time : Option ℚ
  hrv_results : Option HrvMetrics
  ir_data : List ℚ
  red_data : List ℚ
  stable_start_time : Option ℚ
  last_bpm : ℚ
  bpms : List ℚ
deriving DecidableEq, Repr

/-- The state after `__init__` plus the resets at the top of `run_sensor`
(lines 46-48). -/
def initState : MonitorState :=
  { bpm := 0, spo := 0, hrv_state := HrvState.idle, hrv_buffer_ir := [],
    hrv_start_time := none, hrv_results := none, ir_data := [], red_data := [],
    stable_start_time := none, last_bpm := 0, bpms := [] }

/-- The inner drain loop (lines 56-67): append each `(red, ir)` pair to the
rolling buffers, and the IR value also to the HRV buffer while COLLECTING.
(`hrv_state` is constant during the drain, so the per-sample test folds into
one conditional append.) -/
def appendSamples (ps : List (ℚ × ℚ)) (s : MonitorState) : MonitorState :=
  { s with ir_data := s.ir_data ++ ps.map Prod.snd,
           red_data := s.red_data ++ ps.map Prod.fst,
           hrv_buffer_ir :=
             if s.hrv_state = HrvState.collecting then s.hrv_buffer_ir ++ ps.map Prod.snd
             else s.hrv_buffer_ir }

/-- The trim loop (lines 69-71): `pop(0)` from both channels while the IR
buffer holds more than 100 samples. -/
def trimWindow (s : MonitorState) : MonitorState :=
  { s with ir_data := s.ir_data.drop (s.ir_data.length - 100),
           red_data := s.red_data.drop (s.ir_data.length - 100) }

/-- `bpms.append(bpm)` followed by `while len(bpms) > 4: bpms.pop(0)`. -/
def pushBpm (b : ℚ) (bpms : List ℚ) : List ℚ :=
  (bpms ++ [b]).drop ((bpms ++ [b]).length - 4)

/-- Lines 74-85 of `run_sensor`, run when the rolling window holds exactly
100 samples: publish SpO2 (0 when invalid), and on a valid HR push it into
the smoothing history, publish the smoothed mean, then apply the
finger-presence override (the source assigns the mean and then overwrites it
with 0 when both channel means are below the threshold).  The source unpacks
the `calc_hr_and_spo2` tuple into four names; this models the intended
binding of its first four components (the arity mismatch is claim C1). -/
def processWindow (sq : ℚ → ℚ) (d : List ℚ → List ℕ) (s : MonitorState) : MonitorState :=
  let c := calc_hr_and_spo2 sq d s.ir_data s.red_data
  let s1 := { s with spo := if c.spo2_valid then c.spo2 else 0 }
  if c.hr_valid then
    { s1 with bpms := pushBpm (c.hr : ℚ) s.bpms,
              bpm :=
                if npMean s.ir_data < FINGER_DETECTION_THRESHOLD ∧
                   npMean s.red_data < FINGER_DETECTION_THRESHOLD then 0
                else npMean (pushBpm (c.hr : ℚ) s.bpms) }
  else s1

/-- `_calculate_hrv` (lines 132-140): store the result of
`calc_hrv_from_buffer`, then go READY if it is valid, else back to IDLE
clearing the stability anchor.  (`calc_hrv_from_buffer` always returns a
nonempty dictionary, so the Python truthiness test on `self.hrv_results`
reduces to the `valid` flag.)  The stored result is not cleared on the
invalid path. -/
def calculate_hrv (sq : ℚ → ℚ) (d : List ℚ → List ℕ) (s : MonitorState) : MonitorState :=
  let r := calc_hrv_from_buffer sq d s.hrv_buffer_ir SAMPLE_FREQ
  if r.valid then { s with hrv_results := some r, hrv_state := HrvState.ready }
  else { s with hrv_results := some r, hrv_state := HrvState.idle, stable_start_time := none }

/-- `_update_hrv_state` (lines 95-130); `now` models the `time.time()` reads
of this call.  (In COLLECTING the source would fault on a `None` start time;
that configuration is unreachable, and the model leaves the state unchanged
there.) -/
def update_hrv_state (sq : ℚ → ℚ) (d : List ℚ → List ℕ) (now : ℚ) (s : MonitorState) : MonitorState :=
  match s.hrv_state with
  | HrvState.idle =>
    if 0 < s.bpm then
      match s.stable_start_time with
      | none => { s with stable_start_time := some now, last_bpm := s.bpm }
      | some t0 =>
        if |s.bpm - s.last_bpm| < s.last_bpm * (1 / 10) then
          if HRV_MIN_STABLE_TIME ≤ now - t0 then
            { s with hrv_state := HrvState.collecting, hrv_buffer_ir := [],
                     hrv_start_time := some now }
          else s
        else { s with stable_start_time := some now, last_bpm := s.bpm }
    else { s with stable_start_time := none }
  | HrvState.collecting =>
    if 0 < s.bpm then
      match s.hrv_start_time with
      | some st => if HRV_DURATION ≤ now - st then calculate_hrv sq d s else s
      | none => s
    else { s with hrv_state := HrvState.idle, hrv_buffer_ir := [], stable_start_time := none }
  | HrvState.ready => s

/-- `acknowledge_hrv` (lines 142-147). -/
def acknowledge_hrv (s : MonitorState) : MonitorState :=
  { s with hrv_state := HrvState.idle, hrv_results := none, hrv_buffer_ir := [],
           stable_start_time := none }

/-- One observable action on the monitor: one iteration of the `run_sensor`
outer loop receiving the batch `ps` of `(red, ir)` sensor pairs at time
`now`, or an `acknowledge_hrv` call from the consumer. -/
inductive MonitorAct where
  | cycle (now : ℚ) (ps : List (ℚ × ℚ))
  | ack

/-- Execute one action.  A cycle with no available data does nothing
(`if num_bytes > 0`); otherwise: drain samples, trim the rolling window,
evaluate the pipeline when the window holds exactly 100 samples, then run
the HRV state machine. -/
def execAct (sq : ℚ → ℚ) (d : List ℚ → List ℕ) (a : MonitorAct) (s : MonitorState) : MonitorState :=
  match a with
  | MonitorAct.ack => acknowledge_hrv s
  | MonitorAct.cycle now ps =>
    if ps.isEmpty then s
    else
      let s2 := trimWindow (appendSamples ps s)
      let s3 := if s2.ir_data.length = 100 then processWindow sq d s2 else s2
      update_hrv_state sq d now s3

/-- Run a list of actions from the freshly started monitor. -/
def runMonitor (sq : ℚ → ℚ) (d : List ℚ → List ℕ) (acts : List MonitorAct) : MonitorState :=
  acts.foldl (fun s a => execAct sq d a s) initState

/-- A monitor state is reachable when some peak detector, square root and
action sequence produce it. -/
def Reachable (s : MonitorState) : Prop :=
  ∃ sq d acts, runMonitor sq d acts = s

/-- One HRV-machine cycle as seen by `_update_hrv_state`: the published BPM
at that iteration, then the state-machine step at that time (claim C6's
trace model). -/
def hrvCycle (sq : ℚ → ℚ) (d : List ℚ → List ℕ) (s : MonitorState) (p : ℚ × ℚ) : MonitorState :=
  update_hrv_state sq d p.1 { s with bpm := p.2 }

/-! ## Concrete inputs used by counterexamples and witnesses -/

/-- The identity, standing in for `np.sqrt` where its value is irrelevant. -/
def sqId : ℚ → ℚ := fun q => q

/-- An all-zero 100-sample window. -/
def zeros100 : List ℚ := List.replicate 100 0

/-- A detector reporting two peaks 16 samples apart. -/
def dHr16 : List ℚ → List ℕ := fun _ => [0, 16]

/-- A detector reporting three peaks 20 samples apart. -/
def d040 : List ℚ → List ℕ := fun _ => [0, 20, 40]

/-- A detector reporting two peaks 4 samples apart. -/
def d04 : List ℚ → List ℕ := fun _ => [0, 4]

/-- Boundary-ratio IR window: AC 200, DC 175 over the peak segment. -/
def irBoundary : List ℚ := [100, 200, 300, 100]

/-- Boundary-ratio Red window: AC 4, DC 175, so the scaled ratio is exactly 2. -/
def redBoundary : List ℚ := [173, 177, 175, 175]

/-- Window giving one segment ratio of exactly 1 (scaled ratio 100). -/
def irUnit : List ℚ := [1, 2, 3, 1]

/-! ## Helper lemmas -/

lemma ratios_ne_nil_len {peaks : List ℕ} {ir red : List ℚ}
    (h : spo2Ratios peaks ir red ≠ []) : 2 ≤ peaks.length := by
  match peaks with
  | [] => exact absurd rfl h
  | [a] => exact absurd rfl h
  | a :: b :: t => simp

lemma npMedian_single (x : ℚ) : npMedian [x] = x := by
  simp [npMedian, sortAsc, insertSorted]

lemma npMedian_pair (x : ℚ) : npMedian [x, x] = x := by
  simp [npMedian, sortAsc, insertSorted, add_self_div_two]

lemma peakIntervals_two (a b : ℕ) :
    peakIntervals [a, b] = [((b : ℚ) - (a : ℚ)) / 25] := by
  simp [peakIntervals, natDiffs, SAMPLE_FREQ]

lemma peakIntervals_three (a b c : ℕ) :
    peakIntervals [a, b, c] = [((b : ℚ) - (a : ℚ)) / 25, ((c : ℚ) - (b : ℚ)) / 25] := by
  simp [peakIntervals, natDiffs, SAMPLE_FREQ]

/-! ## Claims about the signal pipeline -/

/-- Claim C1 (code bug): `calc_hr_and_spo2` returns a five-component tuple
`(hr, hr_valid, spo2, spo2_valid, hrv_metrics)` for every input, so the
four-name unpacking at `heartrate_monitor.py` line 74 always fails
(ValueError), contradicting the claim that the function returns exactly a
quadruple whose unpacking into four names succeeds. -/
theorem claim_C1_return_arity (sq : ℚ → ℚ) (d : List ℚ → List ℕ) (ir red : List ℚ) :
    (calcHrSpo2Tuple sq d ir red).length = 5 ∧
    pyUnpack4 (calcHrSpo2Tuple sq d ir red) = none :=
  ⟨rfl, rfl⟩

/-- Claim C4 counterexample: with two detected peaks 16 samples apart the
median interval is 0.64 s, `60 / 0.64 = 93.75`, and the code returns
`int(93.75) = 93` while the nearest integer is 94. -/
theorem claim_C4_counterexample :
    2 ≤ (dHr16 []).length ∧
    0 < npMedian (peakIntervals (dHr16 [])) ∧
    (calc_hr_and_spo2 sqId dHr16 [] []).hr ≠
      round ((60 : ℚ) / npMedian (peakIntervals (dHr16 []))) := by
  have hm : npMedian (peakIntervals (dHr16 [])) = 16 / 25 := by
    rw [show dHr16 [] = [0, 16] from rfl, peakIntervals_two, npMedian_single]
    norm_num
  refine ⟨by decide, by rw [hm]; norm_num, ?_⟩
  have hhr : (calc_hr_and_spo2 sqId dHr16 [] []).hr = 93 := by
    have h2 : 2 ≤ (dHr16 ([] : List ℚ)).length := by decide
    have hmp : 0 < npMedian (peakIntervals (dHr16 [])) := by rw [hm]; norm_num
    simp only [calc_hr_and_spo2, hrFromPeaks, if_pos h2, if_pos hmp, pyInt]
    rw [hm]
    norm_num [Int.floor_eq_iff]
  rw [hhr, hm]
  rw [show ((60 : ℚ) / (16 / 25)) = 375 / 4 by norm_num, round_eq]
  norm_num [Int.floor_eq_iff]

/-- Claim C4 (amended): with at least two detected peaks and a positive
median inter-peak interval, the returned heart rate is the floor
(truncation) of `60 / median_interval_in_seconds`, not the nearest
integer. -/
theorem claim_C4_amended_thm (sq : ℚ → ℚ) (d : List ℚ → List ℕ) (ir red : List ℚ)
    (h2 : 2 ≤ (d ir).length) (hm : 0 < npMedian (peakIntervals (d ir))) :
    (calc_hr_and_spo2 sq d ir red).hr = ⌊(60 : ℚ) / npMedian (peakIntervals (d ir))⌋ ∧
    (calc_hr_and_spo2 sq d ir red).hr_valid = true := by
  have hpos : (0 : ℚ) ≤ 60 / npMedian (peakIntervals (d ir)) := by positivity
  simp [calc_hr_and_spo2, hrFromPeaks, if_pos h2, if_pos hm, pyInt, hpos]

/-- Witness for C4: three peaks 20 samples apart give median interval 0.8 s
and heart rate `floor (60 / 0.8) = 75`. -/
theorem claim_C4_witness :
    (calc_hr_and_spo2 sqId d040 [] []).hr = 75 ∧
    (calc_hr_and_spo2 sqId d040 [] []).hr_valid = true := by
  have hm : npMedian (peakIntervals (d040 [])) = 4 / 5 := by
    rw [show d040 [] = [0, 20, 40] from rfl, peakIntervals_three]
    norm_num [npMedian_pair]
  have h := claim_C4_amended_thm sqId d040 [] [] (by decide) (by rw [hm]; norm_num)
  refine ⟨h.1.trans ?_, h.2⟩
  rw [hm]
  norm_num [Int.floor_eq_iff]

/-- Claim C7 (confirmed): when at least one SpO2 ratio is computed, SpO2 is
valid exactly when the scaled averaged ratio lies in the open interval
(2, 184) (so a scaled ratio exactly 2 or exactly 184 is invalid), and when
valid it equals `-45.060 R^2 / 10000 + 30.054 R / 100 + 94.845`. -/
theorem claim_C7_thm (sq : ℚ → ℚ) (d : List ℚ → List ℕ) (ir red : List ℚ)
    (h : spo2Ratios (d ir) ir red ≠ []) :
    ((calc_hr_and_spo2 sq d ir red).spo2_valid = true ↔
      (2 < scaledRatioAvg (d ir) ir red ∧ scaledRatioAvg (d ir) ir red < 184)) ∧
    (2 < scaledRatioAvg (d ir) ir red → scaledRatioAvg (d ir) ir red < 184 →
      (calc_hr_and_spo2 sq d ir red).spo2 =
        -(45060 / 1000 : ℚ) * (scaledRatioAvg (d ir) ir red) ^ 2 / 10000 +
          (30054 / 1000) * (scaledRatioAvg (d ir) ir red) / 100 + 94845 / 1000) := by
  have h2 : 2 ≤ (d ir).length := ratios_ne_nil_len h
  simp only [calc_hr_and_spo2, spo2FromWindow, if_pos h2, if_neg h]
  split_ifs with hc
  · exact ⟨by simp [hc], fun _ _ => by simp [spo2Poly]⟩
  · refine ⟨by simp [hc], fun ha hb => absurd ⟨ha, hb⟩ hc⟩

/-- Witness for C7: a scaled ratio of exactly 2 is rejected, and a scaled
ratio of 100 is accepted with the calibration polynomial value 79.839. -/
lemma segBoundary : segRatioAt irBoundary redBoundary (0, 4) = some (1 / 50) := by
  norm_num [segRatioAt, irBoundary, redBoundary, listMin, listMax, npMean, min_def, max_def]

lemma segUnit : segRatioAt irUnit irUnit (0, 4) = some 1 := by
  norm_num [segRatioAt, irUnit, listMin, listMax, npMean, min_def, max_def]

lemma ratiosBoundary : spo2Ratios (d04 irBoundary) irBoundary redBoundary = [1 / 50] := by
  show spo2Ratios [0, 4] irBoundary redBoundary = [1 / 50]
  simp [spo2Ratios, List.filterMap_cons, segBoundary]

lemma ratiosUnit : spo2Ratios (d04 irUnit) irUnit irUnit = [1] := by
  show spo2Ratios [0, 4] irUnit irUnit = [1]
  simp [spo2Ratios, List.filterMap_cons, segUnit]

lemma scaledBoundary : scaledRatioAvg (d04 irBoundary) irBoundary redBoundary = 2 := by
  rw [scaledRatioAvg, ratiosBoundary]
  norm_num [npMean]

lemma scaledUnit : scaledRatioAvg (d04 irUnit) irUnit irUnit = 100 := by
  rw [scaledRatioAvg, ratiosUnit]
  norm_num [npMean]

theorem claim_C7_witness :
    (calc_hr_and_spo2 sqId d04 irBoundary redBoundary).spo2_valid = false ∧
    (calc_hr_and_spo2 sqId d04 irUnit irUnit).spo2_valid = true ∧
    (calc_hr_and_spo2 sqId d04 irUnit irUnit).spo2 = 79839 / 1000 := by
  have h1 := claim_C7_thm sqId d04 irBoundary redBoundary (by rw [ratiosBoundary]; simp)
  have h2 := claim_C7_thm sqId d04 irUnit irUnit (by rw [ratiosUnit]; simp)
  have hu1 : (2 : ℚ) < scaledRatioAvg (d04 irUnit) irUnit irUnit := by
    rw [scaledUnit]; norm_num
  have hu2 : scaledRatioAvg (d04 irUnit) irUnit irUnit < 184 := by
    rw [scaledUnit]; norm_num
  refine ⟨?_, h2.1.mpr ⟨hu1, hu2⟩, (h2.2 hu1 hu2).trans ?_⟩
  · cases hb : (calc_hr_and_spo2 sqId d04 irBoundary redBoundary).spo2_valid with
    | false => rfl
    | true =>
      have hlt := (h1.1.mp hb).1
      rw [scaledBoundary] at hlt
      exact absurd hlt (by norm_num)
  · rw [scaledUnit]
    norm_num

/-- Claim C8 (confirmed): `calc_hrv_from_buffer` on a buffer of fewer than
750 samples returns the invalid sentinel record regardless of contents. -/
theorem claim_C8_thm (sq : ℚ → ℚ) (d : List ℚ → List ℕ) (buf : List ℚ) (freq : ℚ)
    (h : buf.length < 750) :
    (calc_hrv_from_buffer sq d buf freq).valid = false ∧
    (calc_hrv_from_buffer sq d buf freq).rmssd = -999 ∧
    (calc_hrv_from_buffer sq d buf freq).pnn50 = -999 ∧
    (calc_hrv_from_buffer sq d buf freq).mean_hr = -999 ∧
    (calc_hrv_from_buffer sq d buf freq).num_intervals = 0 := by
  simp [calc_hrv_from_buffer, if_pos h, invalidHrv]

/-- Witness for C8: the empty buffer. -/
theorem claim_C8_witness :
    (calc_hrv_from_buffer sqId dHr16 [] 25).valid = false ∧
    (calc_hrv_from_buffer sqId dHr16 [] 25).rmssd = -999 ∧
    (calc_hrv_from_buffer sqId dHr16 [] 25).pnn50 = -999 ∧
    (calc_hrv_from_buffer sqId dHr16 [] 25).mean_hr = -999 ∧
    (calc_hrv_from_buffer sqId dHr16 [] 25).num_intervals = 0 :=
  claim_C8_thm sqId dHr16 [] 25 (by decide)

/-- Claim C9 (confirmed): with fewer than two detected peaks, both HR and
SpO2 carry the -999 sentinel and a false validity flag. -/
theorem claim_C9_thm (sq : ℚ → ℚ) (d : List ℚ → List ℕ) (ir red : List ℚ)
    (h : (d ir).length < 2) :
    (calc_hr_and_spo2 sq d ir red).hr = -999 ∧
    (calc_hr_and_spo2 sq d ir red).hr_valid = false ∧
    (calc_hr_and_spo2 sq d ir red).spo2 = -999 ∧
    (calc_hr_and_spo2 sq d ir red).spo2_valid = false := by
  have h' : ¬ 2 ≤ (d ir).length := by omega
  simp [calc_hr_and_spo2, hrFromPeaks, spo2FromWindow, if_neg h']

/-- Witness for C9: a detector reporting no peaks. -/
theorem claim_C9_witness :
    (calc_hr_and_spo2 sqId (fun _ => []) zeros100 zeros100).hr = -999 ∧
    (calc_hr_and_spo2 sqId (fun _ => []) zeros100 zeros100).hr_valid = false ∧
    (calc_hr_and_spo2 sqId (fun _ => []) zeros100 zeros100).spo2 = -999 ∧
    (calc_hr_and_spo2 sqId (fun _ => []) zeros100 zeros100).spo2_valid = false :=
  claim_C9_thm sqId (fun _ => []) zeros100 zeros100 (by decide)

/-! ## Evaluation lemmas for constant (replicate) windows -/

lemma foldl_min_rep (x : ℚ) : ∀ n, List.foldl min x (List.replicate n x) = x
  | 0 => rfl
  | n + 1 => by rw [List.replicate_succ, List.foldl_cons, min_self]; exact foldl_min_rep x n

lemma foldl_max_rep (x : ℚ) : ∀ n, List.foldl max x (List.replicate n x) = x
  | 0 => rfl
  | n + 1 => by rw [List.replicate_succ, List.foldl_cons, max_self]; exact foldl_max_rep x n

lemma listMin_replicate_succ (n : ℕ) (x : ℚ) : listMin (List.replicate (n + 1) x) = x := by
  rw [listMin, List.replicate_succ]
  simp only [List.headD_cons, List.foldl_cons, min_self]
  exact foldl_min_rep x n

lemma listMax_replicate_succ (n : ℕ) (x : ℚ) : listMax (List.replicate (n + 1) x) = x := by
  rw [listMax, List.replicate_succ]
  simp only [List.headD_cons, List.foldl_cons, max_self]
  exact foldl_max_rep x n

lemma npMean_replicate (n : ℕ) (x : ℚ) (h : n ≠ 0) : npMean (List.replicate n x) = x := by
  have hn : (n : ℚ) ≠ 0 := Nat.cast_ne_zero.mpr h
  rw [npMean, List.sum_replicate, nsmul_eq_mul, List.length_replicate, mul_comm,
    mul_div_assoc, div_self hn, mul_one]

lemma npMean_single (x : ℚ) : npMean [x] = x := by
  norm_num [npMean]

lemma getD_replicate_zero (n : ℕ) (x dflt : ℚ) : (List.replicate (n + 1) x).getD 0 dflt = x := by
  rw [List.replicate_succ]; rfl

/-- On a constant IR window every candidate segment has zero AC amplitude, so
no SpO2 ratio survives the nonzero-AC guard. -/
lemma segRatioAt_const (v : ℚ) (N : ℕ) (red : List ℚ) (p : ℕ × ℕ) :
    segRatioAt (List.replicate N v) red p = none := by
  simp only [segRatioAt]
  split_ifs with h1 h2
  · exfalso
    apply h2.2.2
    rw [List.drop_replicate, List.take_replicate]
    cases hk : min (p.2 - p.1) (N - p.1) with
    | zero => simp [listMin, listMax]
    | succ k => rw [listMin_replicate_succ, listMax_replicate_succ, sub_self]
  · rfl
  · rfl

lemma spo2Ratios_const (peaks : List ℕ) (v : ℚ) (N : ℕ) (red : List ℚ) :
    spo2Ratios peaks (List.replicate N v) red = [] := by
  rw [spo2Ratios, List.filterMap_eq_nil_iff]
  intro p _
  exact segRatioAt_const v N red p

/-! ## A concrete peak detector and sensor batches for the monitor traces -/

/-- A concrete instance of the abstracted filter + `find_peaks` stage: on a
long (HRV) buffer it reports three peaks 10 samples apart, on a short window
with a strong signal three peaks 20 samples apart, and on a weak-signal
window no peaks. -/
def dC : List ℚ → List ℕ := fun l =>
  if 750 ≤ l.length then [0, 10, 20]
  else if (50000 : ℚ) ≤ l.getD 0 0 then [0, 20, 40]
  else []

/-- A batch of `n` strong-signal sensor pairs. -/
def hiPairs (n : ℕ) : List (ℚ × ℚ) := List.replicate n (60000, 60000)

/-- A batch of `n` weak-signal sensor pairs. -/
def loPairs (n : ℕ) : List (ℚ × ℚ) := List.replicate n (1000, 1000)

lemma dC_small_hi (l : List ℚ) (h : l.length < 750) (hx : (50000 : ℚ) ≤ l.getD 0 0) :
    dC l = [0, 20, 40] := by
  simp only [dC]
  rw [if_neg (by omega), if_pos hx]

lemma dC_small_lo (l : List ℚ) (h : l.length < 750) (hx : l.getD 0 0 < 50000) :
    dC l = [] := by
  simp only [dC]
  rw [if_neg (by omega), if_neg (by exact not_le.mpr hx)]

lemma dC_long (l : List ℚ) (h : 750 ≤ l.length) : dC l = [0, 10, 20] := by
  simp only [dC]
  rw [if_pos h]

lemma dC_hi100 : dC (List.replicate 100 (60000 : ℚ)) = [0, 20, 40] := by
  refine dC_small_hi _ (by simp) ?_
  rw [getD_replicate_zero 99 60000 0]
  norm_num

lemma dC_lo100 : dC (List.replicate 100 (1000 : ℚ)) = [] := by
  refine dC_small_lo _ (by simp) ?_
  rw [getD_replicate_zero 99 1000 0]
  norm_num

lemma hr040 : hrFromPeaks [0, 20, 40] = (75, true) := by
  have hm : npMedian (peakIntervals [0, 20, 40]) = 4 / 5 := by
    rw [peakIntervals_three]
    norm_num [npMedian_pair]
  simp only [hrFromPeaks, hm]
  rw [if_pos (by norm_num), if_pos (by norm_num)]
  have : (60 : ℚ) / (4 / 5) = 75 := by norm_num
  rw [this, pyInt, if_pos (by norm_num), show ((75 : ℚ)) = ((75 : ℤ) : ℚ) by norm_num,
    Int.floor_intCast]

lemma calcHi :
    calc_hr_and_spo2 sqId dC (List.replicate 100 (60000 : ℚ)) (List.replicate 100 60000) =
      { hr := 75, hr_valid := true, spo2 := -999, spo2_valid := false, hrv := none } := by
  have hw : spo2FromWindow sqId [0, 20, 40] (List.replicate 100 (60000 : ℚ))
      (List.replicate 100 60000) = (-999, false, none) := by
    rw [spo2FromWindow, if_pos (by norm_num), if_pos (spo2Ratios_const _ _ _ _)]
  simp only [calc_hr_and_spo2, dC_hi100, hr040, hw]

lemma calcLo :
    calc_hr_and_spo2 sqId dC (List.replicate 100 (1000 : ℚ)) (List.replicate 100 1000) =
      { hr := -999, hr_valid := false, spo2 := -999, spo2_valid := false, hrv := none } := by
  have hhr : hrFromPeaks ([] : List ℕ) = (-999, false) := by
    rw [hrFromPeaks, if_neg (by norm_num)]
  have hw : spo2FromWindow sqId ([] : List ℕ) (List.replicate 100 (1000 : ℚ))
      (List.replicate 100 1000) = (-999, false, none) := by
    rw [spo2FromWindow, if_neg (by norm_num)]
  simp only [calc_hr_and_spo2, dC_lo100, hhr, hw]

/-- The HRV metrics of three peaks 10 samples apart (RR intervals 400 ms). -/
def hrvR : HrvMetrics :=
  { rmssd := 0, pnn50 := 0, mean_hr := 150, num_intervals := 2, valid := true }

lemma metrics102 : calc_hrv_metrics sqId [0, 10, 20] 25 = hrvR := by
  have hrr : filteredRR [0, 10, 20] 25 = [400, 400] := by
    have h1 : rrIntervalsMs [0, 10, 20] 25 = [400, 400] := by
      simp [rrIntervalsMs, natDiffs]
      norm_num
    rw [filteredRR, h1]
    norm_num [List.filter_cons, decide_eq_true_eq]
  have hsd : succDiffs [(400 : ℚ), 400] = [0] := by
    simp [succDiffs]
  rw [calc_hrv_metrics, if_neg (by norm_num), hrr, if_neg (by norm_num), hsd]
  have hround0 : roundTo 2 (sqId (npMean ([(0 : ℚ)].map (fun x => x ^ 2)))) = 0 := by
    have h1 : sqId (npMean ([(0 : ℚ)].map (fun x => x ^ 2))) = 0 := by
      norm_num [npMean, sqId]
    rw [h1, roundTo]
    norm_num [round_zero]
  have hpnn : roundTo 2 (pnn50Val [(400 : ℚ), 400]) = 0 := by
    rw [pnn50Val, hsd, if_pos (by norm_num)]
    have h1 : List.filter (fun x => decide (50 < |x|)) [(0 : ℚ)] = [] := by
      norm_num [List.filter_cons, decide_eq_true_eq]
    rw [h1]
    norm_num [roundTo, round_zero]
  have hmean : roundTo 1 ((60000 : ℚ) / npMean [(400 : ℚ), 400]) = 150 := by
    have h1 : (60000 : ℚ) / npMean [(400 : ℚ), 400] = 150 := by norm_num [npMean]
    rw [h1, roundTo, show (150 : ℚ) * 10 ^ 1 = ((1500 : ℤ) : ℚ) by norm_num, round_intCast]
    norm_num
  rw [hround0, hpnn, hmean]
  norm_num [hrvR]

/-! ## Case lemmas for the HRV state machine step -/

lemma upd_idle_fresh (sq : ℚ → ℚ) (d : List ℚ → List ℕ) (now : ℚ) (s : MonitorState)
    (hst : s.hrv_state = HrvState.idle) (hb : 0 < s.bpm) (ha : s.stable_start_time = none) :
    update_hrv_state sq d now s = { s with stable_start_time := some now, last_bpm := s.bpm } := by
  simp only [update_hrv_state, hst, ha, if_pos hb]

lemma upd_idle_away (sq : ℚ → ℚ) (d : List ℚ → List ℕ) (now : ℚ) (s : MonitorState)
    (hst : s.hrv_state = HrvState.idle) (hb : ¬ 0 < s.bpm) :
    update_hrv_state sq d now s = { s with stable_start_time := none } := by
  simp only [update_hrv_state, hst, if_neg hb]

lemma upd_idle_hold (sq : ℚ → ℚ) (d : List ℚ → List ℕ) (now : ℚ) (s : MonitorState) (t0 : ℚ)
    (hst : s.hrv_state = HrvState.idle) (hb : 0 < s.bpm) (ha : s.stable_start_time = some t0)
    (hw : |s.bpm - s.last_bpm| < s.last_bpm * (1 / 10)) (hd : ¬ HRV_MIN_STABLE_TIME ≤ now - t0) :
    update_hrv_state sq d now s = s := by
  simp only [update_hrv_state, hst, ha, if_pos hb, if_pos hw, if_neg hd]

lemma upd_idle_start (sq : ℚ → ℚ) (d : List ℚ → List ℕ) (now : ℚ) (s : MonitorState) (t0 : ℚ)
    (hst : s.hrv_state = HrvState.idle) (hb : 0 < s.bpm) (ha : s.stable_start_time = some t0)
    (hw : |s.bpm - s.last_bpm| < s.last_bpm * (1 / 10)) (hd : HRV_MIN_STABLE_TIME ≤ now - t0) :
    update_hrv_state sq d now s =
      { s with hrv_state := HrvState.collecting, hrv_buffer_ir := [],
               hrv_start_time := some now } := by
  simp only [update_hrv_state, hst, ha, if_pos hb, if_pos hw, if_pos hd]

lemma upd_idle_drift (sq : ℚ → ℚ) (d : List ℚ → List ℕ) (now : ℚ) (s : MonitorState) (t0 : ℚ)
    (hst : s.hrv_state = HrvState.idle) (hb : 0 < s.bpm) (ha : s.stable_start_time = some t0)
    (hw : ¬ |s.bpm - s.last_bpm| < s.last_bpm * (1 / 10)) :
    update_hrv_state sq d now s = { s with stable_start_time := some now, last_bpm := s.bpm } := by
  simp only [update_hrv_state, hst, ha, if_pos hb, if_neg hw]

lemma upd_coll_lost (sq : ℚ → ℚ) (d : List ℚ → List ℕ) (now : ℚ) (s : MonitorState)
    (hst : s.hrv_state = HrvState.collecting) (hb : ¬ 0 < s.bpm) :
    update_hrv_state sq d now s =
      { s with hrv_state := HrvState.idle, hrv_buffer_ir := [], stable_start_time := none } := by
  simp only [update_hrv_state, hst, if_neg hb]

lemma upd_coll_wait (sq : ℚ → ℚ) (d : List ℚ → List ℕ) (now : ℚ) (s : MonitorState) (st : ℚ)
    (hst : s.hrv_state = HrvState.collecting) (hb : 0 < s.bpm)
    (hs : s.hrv_start_time = some st) (hd : ¬ HRV_DURATION ≤ now - st) :
    update_hrv_state sq d now s = s := by
  simp only [update_hrv_state, hst, hs, if_pos hb, if_neg hd]

lemma upd_coll_done (sq : ℚ → ℚ) (d : List ℚ → List ℕ) (now : ℚ) (s : MonitorState) (st : ℚ)
    (hst : s.hrv_state = HrvState.collecting) (hb : 0 < s.bpm)
    (hs : s.hrv_start_time = some st) (hd : HRV_DURATION ≤ now - st) :
    update_hrv_state sq d now s = calculate_hrv sq d s := by
  simp only [update_hrv_state, hst, hs, if_pos hb, if_pos hd]

lemma upd_ready (sq : ℚ → ℚ) (d : List ℚ → List ℕ) (now : ℚ) (s : MonitorState)
    (hst : s.hrv_state = HrvState.ready) :
    update_hrv_state sq d now s = s := by
  simp only [update_hrv_state, hst]

lemma calculate_hrv_short (sq : ℚ → ℚ) (d : List ℚ → List ℕ) (s : MonitorState)
    (h : s.hrv_buffer_ir.length < 750) :
    calculate_hrv sq d s =
      { s with hrv_results := some invalidHrv, hrv_state := HrvState.idle,
               stable_start_time := none } := by
  simp only [calculate_hrv, calc_hrv_from_buffer, if_pos h]
  norm_num [invalidHrv]

lemma calculate_hrv_750 (s : MonitorState)
    (h : s.hrv_buffer_ir = List.replicate 750 (60000 : ℚ)) :
    calculate_hrv sqId dC s =
      { s with hrv_results := some hrvR, hrv_state := HrvState.ready } := by
  have hb : calc_hrv_from_buffer sqId dC s.hrv_buffer_ir SAMPLE_FREQ = hrvR := by
    rw [h, calc_hrv_from_buffer, if_neg (by norm_num), dC_long _ (by norm_num), SAMPLE_FREQ]
    exact metrics102
  simp only [calculate_hrv, hb]
  rw [if_pos (show hrvR.valid = true from rfl)]

/-! ## Concrete monitor traces -/

lemma npMean_hi100 : npMean (List.replicate 100 (60000 : ℚ)) = 60000 :=
  npMean_replicate 100 60000 (by norm_num)

lemma npMean_lo100 : npMean (List.replicate 100 (1000 : ℚ)) = 1000 :=
  npMean_replicate 100 1000 (by norm_num)

lemma appendSamples_not_coll (ps : List (ℚ × ℚ)) (s : MonitorState)
    (h : ¬ s.hrv_state = HrvState.collecting) :
    appendSamples ps s =
      { s with ir_data := s.ir_data ++ ps.map Prod.snd,
               red_data := s.red_data ++ ps.map Prod.fst } := by
  simp only [appendSamples, if_neg h]

lemma appendSamples_coll (ps : List (ℚ × ℚ)) (s : MonitorState)
    (h : s.hrv_state = HrvState.collecting) :
    appendSamples ps s =
      { s with ir_data := s.ir_data ++ ps.map Prod.snd,
               red_data := s.red_data ++ ps.map Prod.fst,
               hrv_buffer_ir := s.hrv_buffer_ir ++ ps.map Prod.snd } := by
  simp only [appendSamples, if_pos h]

lemma execAct_cycle (sq : ℚ → ℚ) (d : List ℚ → List ℕ) (now : ℚ) (ps : List (ℚ × ℚ))
    (s : MonitorState) (h : ps.isEmpty = false) :
    execAct sq d (MonitorAct.cycle now ps) s =
      update_hrv_state sq d now
        (if (trimWindow (appendSamples ps s)).ir_data.length = 100 then
          processWindow sq d (trimWindow (appendSamples ps s))
         else trimWindow (appendSamples ps s)) := by
  simp only [execAct, h, Bool.false_eq_true, if_false]

/-- A strong-signal evaluation on a full window: SpO2 invalid so `spo := 0`,
HR 75 valid, pushed into the history, no finger-presence override. -/
lemma processHi (s : MonitorState) (hir : s.ir_data = List.replicate 100 60000)
    (hred : s.red_data = List.replicate 100 60000) :
    processWindow sqId dC s =
      { s with spo := 0, bpms := pushBpm 75 s.bpms, bpm := npMean (pushBpm 75 s.bpms) } := by
  simp only [processWindow, hir, hred, calcHi]
  norm_num [npMean_hi100, FINGER_DETECTION_THRESHOLD]

/-- A weak-signal evaluation on a full window: HR and SpO2 both invalid, so
only `spo := 0` is published and the BPM fields are untouched. -/
lemma processLo (s : MonitorState) (hir : s.ir_data = List.replicate 100 1000)
    (hred : s.red_data = List.replicate 100 1000) :
    processWindow sqId dC s = { s with spo := 0 } := by
  simp only [processWindow, hir, hred, calcLo]
  norm_num

/-- State after one strong-signal cycle at time 0 from a fresh start. -/
def S1 : MonitorState :=
  { bpm := 75, spo := 0, hrv_state := HrvState.idle, hrv_buffer_ir := [],
    hrv_start_time := none, hrv_results := none,
    ir_data := List.replicate 100 60000, red_data := List.replicate 100 60000,
    stable_start_time := some 0, last_bpm := 75, bpms := [75] }

lemma exec_c1 : execAct sqId dC (MonitorAct.cycle 0 (hiPairs 100)) initState = S1 := by
  rw [execAct_cycle _ _ _ _ _ (by simp [hiPairs])]
  have ha : trimWindow (appendSamples (hiPairs 100) initState) =
      { initState with ir_data := List.replicate 100 60000,
                       red_data := List.replicate 100 60000 } := by
    rw [appendSamples_not_coll _ _ (by decide)]
    simp only [hiPairs, trimWindow, initState, List.map_replicate,
      List.nil_append, List.length_replicate]
    norm_num
  rw [ha, if_pos (by simp), processHi _ (by simp) (by simp)]
  rw [upd_idle_fresh sqId dC 0 _ (by simp [initState]) (by norm_num [initState, pushBpm, npMean_single]) (by simp [initState])]
  simp only [initState, S1, pushBpm, npMean_single]
  norm_num [npMean_single]

lemma trim_rep (m n : ℕ) (x : ℚ) :
    (List.replicate m x ++ List.replicate n x).drop
      ((List.replicate m x ++ List.replicate n x).length - 100) =
      List.replicate (m + n - (m + n - 100)) x := by
  rw [← List.replicate_add, List.length_replicate, List.drop_replicate]

/-- State after a second strong-signal cycle at time 2: the 2-second
stability threshold is met and COLLECTING begins. -/
def S2 : MonitorState :=
  { bpm := 75, spo := 0, hrv_state := HrvState.collecting, hrv_buffer_ir := [],
    hrv_start_time := some 2, hrv_results := none,
    ir_data := List.replicate 100 60000, red_data := List.replicate 100 60000,
    stable_start_time := some 0, last_bpm := 75, bpms := [75, 75] }

lemma exec_c2 : execAct sqId dC (MonitorAct.cycle 2 (hiPairs 100)) S1 = S2 := by
  rw [execAct_cycle _ _ _ _ _ (by simp [hiPairs])]
  have ha : trimWindow (appendSamples (hiPairs 100) S1) = S1 := by
    rw [appendSamples_not_coll _ _ (by decide)]
    simp only [trimWindow, hiPairs, S1, List.map_replicate, trim_rep]
  rw [ha, if_pos (by simp [S1]), processHi _ (by simp [S1]) (by simp [S1])]
  have hmid : ({ S1 with spo := 0, bpms := pushBpm 75 S1.bpms, bpm := npMean (pushBpm 75 S1.bpms) } : MonitorState) = { S1 with bpms := [75, 75] } := by
    simp only [S1, pushBpm]
    norm_num [npMean]
  rw [hmid]
  rw [upd_idle_start sqId dC 2 _ 0 (by simp [S1]) (by norm_num [S1]) (by simp [S1])
    (by norm_num [S1]) (by norm_num [HRV_MIN_STABLE_TIME])]
  simp only [S1, S2]

/-- State after the collection window times out with only one collected
sample: the HRV computation fails, the invalid result stays stored, and the
machine silently returns to IDLE. -/
def S3A : MonitorState :=
  { bpm := 75, spo := 0, hrv_state := HrvState.idle, hrv_buffer_ir := [60000],
    hrv_start_time := some 2, hrv_results := some invalidHrv,
    ir_data := List.replicate 100 60000, red_data := List.replicate 100 60000,
    stable_start_time := none, last_bpm := 75, bpms := [75, 75, 75] }

lemma exec_c3A : execAct sqId dC (MonitorAct.cycle 62 (hiPairs 1)) S2 = S3A := by
  rw [execAct_cycle _ _ _ _ _ (by simp [hiPairs])]
  have ha : trimWindow (appendSamples (hiPairs 1) S2) = { S2 with hrv_buffer_ir := [60000] } := by
    rw [appendSamples_coll _ _ (by decide)]
    simp only [trimWindow, hiPairs, S2, List.map_replicate, trim_rep, List.nil_append]
    norm_num
  rw [ha, if_pos (by simp [S2]), processHi _ (by simp [S2]) (by simp [S2])]
  have hpush : pushBpm 75 S2.bpms = [75, 75, 75] := by simp [S2, pushBpm]
  have hmean : npMean [(75 : ℚ), 75, 75] = 75 := by norm_num [npMean]
  have hmid : ({ S2 with hrv_buffer_ir := [60000], spo := 0, bpms := pushBpm 75 S2.bpms, bpm := npMean (pushBpm 75 S2.bpms) } : MonitorState) = { S2 with hrv_buffer_ir := [60000], bpms := [75, 75, 75] } := by
    rw [hpush, hmean]
    simp only [S2]
  rw [hmid]
  rw [upd_coll_done sqId dC 62 _ 2 (by simp only [S2]) (by simp only [S2]; norm_num)
    (by simp only [S2]) (by norm_num [HRV_DURATION])]
  rw [calculate_hrv_short sqId dC _ (by simp [S2])]
  simp only [S2, S3A]

/-- State after the collection window times out with 750 collected samples:
the HRV computation succeeds and the machine holds the result in READY. -/
def S3B : MonitorState :=
  { bpm := 75, spo := 0, hrv_state := HrvState.ready,
    hrv_buffer_ir := List.replicate 750 60000,
    hrv_start_time := some 2, hrv_results := some hrvR,
    ir_data := List.replicate 100 60000, red_data := List.replicate 100 60000,
    stable_start_time := some 0, last_bpm := 75, bpms := [75, 75, 75] }

lemma exec_c3B : execAct sqId dC (MonitorAct.cycle 62 (hiPairs 750)) S2 = S3B := by
  rw [execAct_cycle _ _ _ _ _ (by simp [hiPairs])]
  have ha : trimWindow (appendSamples (hiPairs 750) S2) = { S2 with hrv_buffer_ir := List.replicate 750 60000 } := by
    rw [appendSamples_coll _ _ (by decide)]
    simp only [trimWindow, hiPairs, S2, List.map_replicate, trim_rep, List.nil_append]
  rw [ha, if_pos (by simp only [S2, List.length_replicate]),
    processHi _ (by simp only [S2]) (by simp only [S2])]
  have hpush : pushBpm 75 S2.bpms = [75, 75, 75] := by simp [S2, pushBpm]
  have hmean : npMean [(75 : ℚ), 75, 75] = 75 := by norm_num [npMean]
  have hmid : ({ S2 with hrv_buffer_ir := List.replicate 750 60000, spo := 0, bpms := pushBpm 75 S2.bpms, bpm := npMean (pushBpm 75 S2.bpms) } : MonitorState) = { S2 with hrv_buffer_ir := List.replicate 750 60000, bpms := [75, 75, 75] } := by
    rw [hpush, hmean]
    simp only [S2]
  rw [hmid]
  rw [upd_coll_done sqId dC 62 _ 2 (by simp only [S2]) (by simp only [S2]; norm_num)
    (by simp only [S2]) (by norm_num [HRV_DURATION])]
  rw [calculate_hrv_750 _ rfl]
  simp only [S2, S3B]

lemma trim_mixed (x y : ℚ) :
    (List.replicate 100 x ++ List.replicate 100 y).drop
      ((List.replicate 100 x ++ List.replicate 100 y).length - 100) = List.replicate 100 y := by
  have h : (List.replicate 100 x ++ List.replicate 100 y).length - 100 =
      (List.replicate 100 x).length := by
    rw [List.length_append, List.length_replicate, List.length_replicate]
  rw [h, List.drop_left]

/-- State after a weak-signal cycle at time 1 from `S1`: the window refills
with weak samples, HR comes back invalid, and the stale BPM of 75 stays
published even though both channel means are now 1000. -/
def SStale : MonitorState :=
  { bpm := 75, spo := 0, hrv_state := HrvState.idle, hrv_buffer_ir := [],
    hrv_start_time := none, hrv_results := none,
    ir_data := List.replicate 100 1000, red_data := List.replicate 100 1000,
    stable_start_time := some 0, last_bpm := 75, bpms := [75] }

lemma exec_cLo : execAct sqId dC (MonitorAct.cycle 1 (loPairs 100)) S1 = SStale := by
  rw [execAct_cycle _ _ _ _ _ (by simp [loPairs])]
  have ha : trimWindow (appendSamples (loPairs 100) S1) = SStale := by
    rw [appendSamples_not_coll _ _ (by decide)]
    simp only [trimWindow, loPairs, S1, SStale, List.map_replicate, trim_mixed]
  rw [ha, if_pos (by simp [SStale]), processLo _ (by simp [SStale]) (by simp [SStale])]
  have hmid : ({ SStale with spo := 0 } : MonitorState) = SStale := by
    simp only [SStale]
  rw [hmid]
  exact upd_idle_hold sqId dC 1 _ 0 (by simp [SStale]) (by norm_num [SStale])
    (by simp [SStale]) (by norm_num [SStale]) (by norm_num [HRV_MIN_STABLE_TIME])

lemma run_S1 : runMonitor sqId dC [MonitorAct.cycle 0 (hiPairs 100)] = S1 := by
  simp only [runMonitor, List.foldl_cons, List.foldl_nil]
  exact exec_c1

lemma run_S3A : runMonitor sqId dC
    [MonitorAct.cycle 0 (hiPairs 100), MonitorAct.cycle 2 (hiPairs 100),
     MonitorAct.cycle 62 (hiPairs 1)] = S3A := by
  simp only [runMonitor, List.foldl_cons, List.foldl_nil]
  rw [exec_c1, exec_c2, exec_c3A]

lemma run_S3B : runMonitor sqId dC
    [MonitorAct.cycle 0 (hiPairs 100), MonitorAct.cycle 2 (hiPairs 100),
     MonitorAct.cycle 62 (hiPairs 750)] = S3B := by
  simp only [runMonitor, List.foldl_cons, List.foldl_nil]
  rw [exec_c1, exec_c2, exec_c3B]

lemma run_SStale : runMonitor sqId dC
    [MonitorAct.cycle 0 (hiPairs 100), MonitorAct.cycle 1 (loPairs 100)] = SStale := by
  simp only [runMonitor, List.foldl_cons, List.foldl_nil]
  rw [exec_c1, exec_cLo]

/-! ## The monitor invariant: valid HRV results only in READY, no -999 SpO2 -/

/-- The published-state invariant maintained by every monitor action. -/
def MonitorInv (s : MonitorState) : Prop :=
  (∀ r, s.hrv_results = some r → r.valid = true → s.hrv_state = HrvState.ready) ∧
  s.spo ≠ -999

lemma upd_coll_nostart (sq : ℚ → ℚ) (d : List ℚ → List ℕ) (now : ℚ) (s : MonitorState)
    (hst : s.hrv_state = HrvState.collecting) (hb : 0 < s.bpm)
    (hs : s.hrv_start_time = none) :
    update_hrv_state sq d now s = s := by
  simp only [update_hrv_state, hst, hs, if_pos hb]

/-- Exhaustive case analysis of one HRV-machine step. -/
lemma update_hrv_cases (sq : ℚ → ℚ) (d : List ℚ → List ℕ) (now : ℚ) (s : MonitorState) :
    update_hrv_state sq d now s = s ∨
    update_hrv_state sq d now s = { s with stable_start_time := some now, last_bpm := s.bpm } ∨
    update_hrv_state sq d now s = { s with stable_start_time := none } ∨
    (s.hrv_state = HrvState.idle ∧
      update_hrv_state sq d now s =
        { s with hrv_state := HrvState.collecting, hrv_buffer_ir := [],
                 hrv_start_time := some now }) ∨
    (s.hrv_state = HrvState.collecting ∧
      update_hrv_state sq d now s =
        { s with hrv_state := HrvState.idle, hrv_buffer_ir := [],
                 stable_start_time := none }) ∨
    update_hrv_state sq d now s = calculate_hrv sq d s := by
  cases hst : s.hrv_state with
  | idle =>
    by_cases hb : 0 < s.bpm
    · cases has : s.stable_start_time with
      | none =>
        refine Or.inr (Or.inl ?_)
        rw [upd_idle_fresh sq d now s hst hb has, hst]
      | some t0 =>
        by_cases hw : |s.bpm - s.last_bpm| < s.last_bpm * (1 / 10)
        · by_cases hd : HRV_MIN_STABLE_TIME ≤ now - t0
          · refine Or.inr (Or.inr (Or.inr (Or.inl ⟨rfl, ?_⟩)))
            rw [upd_idle_start sq d now s t0 hst hb has hw hd, has]
          · exact Or.inl (upd_idle_hold sq d now s t0 hst hb has hw hd)
        · refine Or.inr (Or.inl ?_)
          rw [upd_idle_drift sq d now s t0 hst hb has hw, hst]
    · refine Or.inr (Or.inr (Or.inl ?_))
      rw [upd_idle_away sq d now s hst hb, hst]
  | collecting =>
    by_cases hb : 0 < s.bpm
    · cases hstart : s.hrv_start_time with
      | none => exact Or.inl (upd_coll_nostart sq d now s hst hb hstart)
      | some st =>
        by_cases hd : HRV_DURATION ≤ now - st
        · exact Or.inr (Or.inr (Or.inr (Or.inr (Or.inr
            (upd_coll_done sq d now s st hst hb hstart hd)))))
        · exact Or.inl (upd_coll_wait sq d now s st hst hb hstart hd)
    · refine Or.inr (Or.inr (Or.inr (Or.inr (Or.inl ⟨rfl, ?_⟩))))
      rw [upd_coll_lost sq d now s hst hb]
  | ready => exact Or.inl (upd_ready sq d now s hst)

lemma spo2FromWindow_valid (sq : ℚ → ℚ) (peaks : List ℕ) (ir red : List ℚ)
    (h : (spo2FromWindow sq peaks ir red).2.1 = true) :
    ∃ x, 2 < x ∧ x < 184 ∧ (spo2FromWindow sq peaks ir red).1 = spo2Poly x := by
  by_cases h1 : 2 ≤ peaks.length
  · by_cases h2 : spo2Ratios peaks ir red = []
    · rw [spo2FromWindow, if_pos h1, if_pos h2] at h
      exact absurd h (by simp)
    · by_cases h3 : 2 < scaledRatioAvg peaks ir red ∧ scaledRatioAvg peaks ir red < 184
      · exact ⟨scaledRatioAvg peaks ir red, h3.1, h3.2,
          by rw [spo2FromWindow, if_pos h1, if_neg h2, if_pos h3]⟩
      · rw [spo2FromWindow, if_pos h1, if_neg h2, if_neg h3] at h
        exact absurd h (by simp)
  · rw [spo2FromWindow, if_neg h1] at h
    exact absurd h (by simp)

lemma spo2Poly_gt (x : ℚ) (h1 : 2 < x) (h2 : x < 184) : spo2Poly x > -999 := by
  rw [spo2Poly]
  nlinarith [sq_nonneg x, sq_nonneg (x - 184), mul_pos (lt_trans zero_lt_two h1) (sub_pos.mpr h2)]

lemma calc_spo2_ne (sq : ℚ → ℚ) (d : List ℚ → List ℕ) (ir red : List ℚ)
    (h : (calc_hr_and_spo2 sq d ir red).spo2_valid = true) :
    (calc_hr_and_spo2 sq d ir red).spo2 ≠ -999 := by
  obtain ⟨x, hx1, hx2, hx3⟩ := spo2FromWindow_valid sq (d ir) ir red h
  show (spo2FromWindow sq (d ir) ir red).1 ≠ -999
  rw [hx3]
  have hgt := spo2Poly_gt x hx1 hx2
  intro hc
  rw [hc] at hgt
  norm_num at hgt

lemma process_hrv_state (sq : ℚ → ℚ) (d : List ℚ → List ℕ) (s : MonitorState) :
    (processWindow sq d s).hrv_state = s.hrv_state := by
  simp only [processWindow]
  split_ifs <;> rfl

lemma process_hrv_results (sq : ℚ → ℚ) (d : List ℚ → List ℕ) (s : MonitorState) :
    (processWindow sq d s).hrv_results = s.hrv_results := by
  simp only [processWindow]
  split_ifs <;> rfl

lemma process_hrv_buffer (sq : ℚ → ℚ) (d : List ℚ → List ℕ) (s : MonitorState) :
    (processWindow sq d s).hrv_buffer_ir = s.hrv_buffer_ir := by
  simp only [processWindow]
  split_ifs <;> rfl

lemma process_spo (sq : ℚ → ℚ) (d : List ℚ → List ℕ) (s : MonitorState) :
    (processWindow sq d s).spo = 0 ∨
      ((calc_hr_and_spo2 sq d s.ir_data s.red_data).spo2_valid = true ∧
        (processWindow sq d s).spo = (calc_hr_and_spo2 sq d s.ir_data s.red_data).spo2) := by
  simp only [processWindow]
  by_cases hsp : (calc_hr_and_spo2 sq d s.ir_data s.red_data).spo2_valid = true
  · right
    refine ⟨hsp, ?_⟩
    split_ifs <;> simp [hsp]
  · left
    split_ifs <;> simp [hsp]

lemma inv_process (sq : ℚ → ℚ) (d : List ℚ → List ℕ) (s : MonitorState)
    (h : MonitorInv s) : MonitorInv (processWindow sq d s) := by
  constructor
  · intro r hr hv
    rw [process_hrv_results] at hr
    rw [process_hrv_state]
    exact h.1 r hr hv
  · rcases process_spo sq d s with hz | ⟨hv, heq⟩
    · rw [hz]; norm_num
    · rw [heq]; exact calc_spo2_ne sq d _ _ hv

lemma inv_calculate (sq : ℚ → ℚ) (d : List ℚ → List ℕ) (s : MonitorState)
    (h : s.spo ≠ -999) : MonitorInv (calculate_hrv sq d s) := by
  rw [calculate_hrv]
  split_ifs with hv
  · exact ⟨fun r hr _ => rfl, h⟩
  · refine ⟨fun r hr hrv => ?_, h⟩
    simp only [Option.some.injEq] at hr
    rw [← hr] at hrv
    exact absurd hrv hv

lemma inv_update (sq : ℚ → ℚ) (d : List ℚ → List ℕ) (now : ℚ) (s : MonitorState)
    (h : MonitorInv s) : MonitorInv (update_hrv_state sq d now s) := by
  rcases update_hrv_cases sq d now s with h1 | h1 | h1 | ⟨hst, h1⟩ | ⟨hst, h1⟩ | h1 <;> rw [h1]
  · exact h
  · exact ⟨h.1, h.2⟩
  · exact ⟨h.1, h.2⟩
  · refine ⟨fun r hr hv => ?_, h.2⟩
    have := h.1 r hr hv
    rw [hst] at this
    exact absurd this (by simp)
  · refine ⟨fun r hr hv => ?_, h.2⟩
    have := h.1 r hr hv
    rw [hst] at this
    exact absurd this (by simp)
  · exact inv_calculate sq d s h.2

lemma inv_ack (s : MonitorState) (h : MonitorInv s) : MonitorInv (acknowledge_hrv s) := by
  refine ⟨fun r hr _ => ?_, h.2⟩
  simp only [acknowledge_hrv] at hr
  exact absurd hr (by simp)

lemma inv_exec (sq : ℚ → ℚ) (d : List ℚ → List ℕ) (a : MonitorAct) (s : MonitorState)
    (h : MonitorInv s) : MonitorInv (execAct sq d a s) := by
  cases a with
  | ack => exact inv_ack s h
  | cycle now ps =>
    simp only [execAct]
    split_ifs with hps hlen
    · exact h
    · exact inv_update sq d now _ (inv_process sq d _ ⟨h.1, h.2⟩)
    · exact inv_update sq d now _ ⟨h.1, h.2⟩

lemma inv_foldl (sq : ℚ → ℚ) (d : List ℚ → List ℕ) :
    ∀ (acts : List MonitorAct) (s : MonitorState), MonitorInv s →
      MonitorInv (List.foldl (fun s a => execAct sq d a s) s acts)
  | [], _, h => h
  | a :: as, s, h => inv_foldl sq d as _ (inv_exec sq d a s h)

lemma inv_initState : MonitorInv initState := by
  refine ⟨fun r hr _ => ?_, by norm_num [initState]⟩
  simp [initState] at hr

lemma reachable_inv (s : MonitorState) (h : Reachable s) : MonitorInv s := by
  obtain ⟨sq, d, acts, rfl⟩ := h
  exact inv_foldl sq d acts initState inv_initState

/-! ## Claims about the monitor state machine and published state -/

/-- Claim C2 counterexample: after a COLLECTING window times out with an
undersized buffer, the monitor is back in IDLE yet still holds the stored
(invalid) HRV result — `hrv_results` is not `None` outside READY. -/
theorem claim_C2_counterexample :
    Reachable S3A ∧ S3A.hrv_state = HrvState.idle ∧ S3A.hrv_results ≠ none :=
  ⟨⟨sqId, dC, _, run_S3A⟩, by simp [S3A], by simp [S3A]⟩

/-- Claim C2 (amended): in every reachable monitor state, a stored *valid*
HRV result is present only while the state is READY; in IDLE or COLLECTING
the `hrv_results` field is either `None` or a leftover invalid result from a
failed computation. -/
theorem claim_C2_amended_thm (s : MonitorState) (h : Reachable s) :
    ∀ r, s.hrv_results = some r → r.valid = true → s.hrv_state = HrvState.ready :=
  (reachable_inv s h).1

/-- Witness for C2: the reachable READY state holding a valid result. -/
theorem claim_C2_witness :
    Reachable S3B ∧ S3B.hrv_results = some hrvR ∧ hrvR.valid = true ∧
    S3B.hrv_state = HrvState.ready :=
  ⟨⟨sqId, dC, _, run_S3B⟩, rfl, rfl,
    claim_C2_amended_thm S3B ⟨sqId, dC, _, run_S3B⟩ hrvR rfl rfl⟩

/-- Claim C3 counterexample: a reachable state reached right after a pipeline
evaluation on a full rolling window whose channel means are both 1000
(far below 50000), where the invalid HR reading left the stale published BPM
of 75 in place — the finger-presence override did not force 0. -/
theorem claim_C3_counterexample :
    Reachable SStale ∧ SStale.ir_data.length = 100 ∧
    npMean SStale.ir_data < 50000 ∧ npMean SStale.red_data < 50000 ∧
    SStale.bpms ≠ [] ∧ SStale.bpm = 75 := by
  refine ⟨⟨sqId, dC, _, run_SStale⟩, by simp [SStale], ?_, ?_, by simp [SStale], by simp [SStale]⟩
  · rw [show SStale.ir_data = List.replicate 100 1000 from rfl, npMean_lo100]
    norm_num
  · rw [show SStale.red_data = List.replicate 100 1000 from rfl, npMean_lo100]
    norm_num

/-- Claim C3 (amended): the finger-presence override applies only on cycles
whose HR reading is valid — then both channel means below 50000 force the
published BPM to 0; on cycles with an invalid HR reading the previously
published BPM is retained unchanged, even when both means are below 50000. -/
theorem claim_C3_amended_thm (sq : ℚ → ℚ) (d : List ℚ → List ℕ) (s : MonitorState) :
    ((calc_hr_and_spo2 sq d s.ir_data s.red_data).hr_valid = true →
      npMean s.ir_data < 50000 → npMean s.red_data < 50000 →
      (processWindow sq d s).bpm = 0) ∧
    ((calc_hr_and_spo2 sq d s.ir_data s.red_data).hr_valid = false →
      (processWindow sq d s).bpm = s.bpm) := by
  constructor
  · intro hv h1 h2
    simp only [processWindow, FINGER_DETECTION_THRESHOLD, hv, if_true]
    rw [if_pos ⟨h1, h2⟩]
  · intro hv
    simp only [processWindow, hv]
    rfl

/-- A full weak-signal window with a stale nonzero BPM history, used to
witness the amended C3. -/
def SW : MonitorState :=
  { initState with ir_data := List.replicate 100 1000, red_data := List.replicate 100 1000,
                   bpm := 75, bpms := [75] }

/-- Witness for C3: with a valid HR reading on a weak-signal window, the
override fires and the published BPM becomes 0. -/
theorem claim_C3_witness :
    (calc_hr_and_spo2 sqId d040 SW.ir_data SW.red_data).hr_valid = true ∧
    npMean SW.ir_data < 50000 ∧ npMean SW.red_data < 50000 ∧
    (processWindow sqId d040 SW).bpm = 0 := by
  have hv : (calc_hr_and_spo2 sqId d040 SW.ir_data SW.red_data).hr_valid = true := by
    show (hrFromPeaks (d040 SW.ir_data)).2 = true
    rw [show d040 SW.ir_data = [0, 20, 40] from rfl, hr040]
  have h1 : npMean SW.ir_data < 50000 := by
    rw [show SW.ir_data = List.replicate 100 1000 from rfl, npMean_lo100]
    norm_num
  have h2 : npMean SW.red_data < 50000 := by
    rw [show SW.red_data = List.replicate 100 1000 from rfl, npMean_lo100]
    norm_num
  exact ⟨hv, h1, h2, (claim_C3_amended_thm sqId d040 SW).1 hv h1 h2⟩

/-- Claim C5 counterexample: in the reachable IDLE state `S1` a stability
anchor is set; `acknowledge_hrv` clears it, so the call is not a no-op on
the monitor state even though the HRV state is already IDLE. -/
theorem claim_C5_counterexample :
    Reachable S1 ∧ S1.hrv_state = HrvState.idle ∧ acknowledge_hrv S1 ≠ S1 :=
  ⟨⟨sqId, dC, _, run_S1⟩, by simp [S1], by simp [acknowledge_hrv, S1]⟩

/-- Claim C5 (amended): calling `acknowledge_hrv` while IDLE keeps the HRV
state IDLE and raises no exception, and leaves the published BPM/SpO2, the
rolling buffers, the smoothing history and the collection start time
untouched; but it does reset `hrv_results`, the HRV buffer and the stability
anchor, so it is not a no-op on the full monitor state (it is idempotent:
a second call changes nothing further). -/
theorem claim_C5_amended_thm (s : MonitorState) (h : s.hrv_state = HrvState.idle) :
    (acknowledge_hrv s).hrv_state = HrvState.idle ∧
    (acknowledge_hrv s).bpm = s.bpm ∧
    (acknowledge_hrv s).spo = s.spo ∧
    (acknowledge_hrv s).ir_data = s.ir_data ∧
    (acknowledge_hrv s).red_data = s.red_data ∧
    (acknowledge_hrv s).bpms = s.bpms ∧
    (acknowledge_hrv s).hrv_start_time = s.hrv_start_time ∧
    (acknowledge_hrv s).hrv_results = none ∧
    (acknowledge_hrv s).hrv_buffer_ir = [] ∧
    (acknowledge_hrv s).stable_start_time = none ∧
    acknowledge_hrv (acknowledge_hrv s) = acknowledge_hrv s := by
  simp [acknowledge_hrv]

/-- Witness for C5: the amended statement at the reachable IDLE state `S1`. -/
theorem claim_C5_witness :
    (acknowledge_hrv S1).hrv_state = HrvState.idle ∧
    (acknowledge_hrv S1).bpm = S1.bpm ∧
    acknowledge_hrv (acknowledge_hrv S1) = acknowledge_hrv S1 := by
  have h := claim_C5_amended_thm S1 (by simp [S1])
  exact ⟨h.1, h.2.1, h.2.2.2.2.2.2.2.2.2.2⟩

/-- Claim C10 (confirmed): when a pipeline evaluation reports SpO2 invalid
the monitor publishes `spo = 0`, and in every reachable state the published
SpO2 is never the -999 sentinel. -/
theorem claim_C10_thm :
    (∀ (sq : ℚ → ℚ) (d : List ℚ → List ℕ) (s : MonitorState),
      (calc_hr_and_spo2 sq d s.ir_data s.red_data).spo2_valid = false →
      (processWindow sq d s).spo = 0) ∧
    (∀ s : MonitorState, Reachable s → s.spo ≠ -999) := by
  constructor
  · intro sq d s hinv
    rcases process_spo sq d s with hz | ⟨hv, _⟩
    · exact hz
    · rw [hinv] at hv
      exact absurd hv (by simp)
  · intro s h
    exact (reachable_inv s h).2

/-- Witness for C10: a no-peak evaluation on the initial state publishes 0,
and the initial state is reachable with a non-sentinel SpO2. -/
theorem claim_C10_witness :
    (processWindow sqId (fun _ => []) initState).spo = 0 ∧ initState.spo ≠ -999 := by
  have hinv : (calc_hr_and_spo2 sqId (fun _ => []) initState.ir_data
      initState.red_data).spo2_valid = false := by
    show (spo2FromWindow sqId [] initState.ir_data initState.red_data).2.1 = false
    rw [spo2FromWindow, if_neg (by norm_num)]
  exact ⟨claim_C10_thm.1 sqId (fun _ => []) initState hinv,
    claim_C10_thm.2 initState ⟨sqId, fun _ => [], [], rfl⟩⟩

/-! ## Traces of the HRV state machine (claim C6) -/

/-- Run a sequence of (time, published-BPM) cycles through the HRV state
machine. -/
def hrvRun (sq : ℚ → ℚ) (d : List ℚ → List ℕ) (s0 : MonitorState)
    (w : List (ℚ × ℚ)) : MonitorState :=
  List.foldl (hrvCycle sq d) s0 w

lemma hrvRun_nil (sq : ℚ → ℚ) (d : List ℚ → List ℕ) (s0 : MonitorState) :
    hrvRun sq d s0 [] = s0 := rfl

lemma hrvRun_snoc (sq : ℚ → ℚ) (d : List ℚ → List ℕ) (s0 : MonitorState)
    (w : List (ℚ × ℚ)) (p : ℚ × ℚ) :
    hrvRun sq d s0 (w ++ [p]) = hrvCycle sq d (hrvRun sq d s0 w) p := by
  rw [hrvRun, hrvRun, List.foldl_append, List.foldl_cons, List.foldl_nil]

/-- From IDLE, a step that leaves the machine IDLE with an anchor either just
created that anchor (with the current time and BPM) or preserved it, in which
case the current BPM was within 10% of the anchored reference. -/
lemma idle_step_anchor (sq : ℚ → ℚ) (d : List ℚ → List ℕ) (t t0 : ℚ) (u : MonitorState)
    (hidle : u.hrv_state = HrvState.idle)
    (hvanchor : (update_hrv_state sq d t u).stable_start_time = some t0)
    (hvidle : (update_hrv_state sq d t u).hrv_state = HrvState.idle) :
    (t0 = t ∧ update_hrv_state sq d t u =
      { u with stable_start_time := some t, last_bpm := u.bpm }) ∨
    (u.stable_start_time = some t0 ∧ update_hrv_state sq d t u = u ∧
      |u.bpm - u.last_bpm| < u.last_bpm * (1 / 10)) := by
  by_cases hb : 0 < u.bpm
  · cases ha : u.stable_start_time with
    | none =>
      left
      have he := upd_idle_fresh sq d t u hidle hb ha
      refine ⟨?_, he⟩
      rw [he] at hvanchor
      exact (Option.some.injEq _ _ ▸ hvanchor).symm
    | some t1 =>
      by_cases hw : |u.bpm - u.last_bpm| < u.last_bpm * (1 / 10)
      · by_cases hd : HRV_MIN_STABLE_TIME ≤ t - t1
        · exfalso
          have he := upd_idle_start sq d t u t1 hidle hb ha hw hd
          rw [he] at hvidle
          simp at hvidle
        · right
          have he := upd_idle_hold sq d t u t1 hidle hb ha hw hd
          rw [he] at hvanchor
          rw [ha] at hvanchor
          exact ⟨hvanchor, he, hw⟩
      · left
        have he := upd_idle_drift sq d t u t1 hidle hb ha hw
        refine ⟨?_, he⟩
        rw [he] at hvanchor
        exact (Option.some.injEq _ _ ▸ hvanchor).symm
  · exfalso
    have he := upd_idle_away sq d t u hidle hb
    rw [he] at hvanchor
    simp at hvanchor

/-- From IDLE, a step into COLLECTING requires a finger, an anchor at least
`HRV_MIN_STABLE_TIME` old and a BPM within 10% of the anchored reference. -/
lemma idle_step_to_collecting (sq : ℚ → ℚ) (d : List ℚ → List ℕ) (t : ℚ) (u : MonitorState)
    (hidle : u.hrv_state = HrvState.idle)
    (hc : (update_hrv_state sq d t u).hrv_state = HrvState.collecting) :
    ∃ t0, u.stable_start_time = some t0 ∧ 0 < u.bpm ∧
      |u.bpm - u.last_bpm| < u.last_bpm * (1 / 10) ∧ HRV_MIN_STABLE_TIME ≤ t - t0 := by
  by_cases hb : 0 < u.bpm
  · cases ha : u.stable_start_time with
    | none =>
      exfalso
      have he := upd_idle_fresh sq d t u hidle hb ha
      rw [he] at hc
      simp [hidle] at hc
    | some t1 =>
      by_cases hw : |u.bpm - u.last_bpm| < u.last_bpm * (1 / 10)
      · by_cases hd : HRV_MIN_STABLE_TIME ≤ t - t1
        · exact ⟨t1, rfl, hb, hw, hd⟩
        · exfalso
          have he := upd_idle_hold sq d t u t1 hidle hb ha hw hd
          rw [he] at hc
          rw [hidle] at hc
          simp at hc
      · exfalso
        have he := upd_idle_drift sq d t u t1 hidle hb ha hw
        rw [he] at hc
        simp [hidle] at hc
  · exfalso
    have he := upd_idle_away sq d t u hidle hb
    rw [he] at hc
    simp [hidle] at hc

/-- `_calculate_hrv` either moves to READY or back to IDLE clearing the
anchor. -/
lemma calculate_state_anchor (sq : ℚ → ℚ) (d : List ℚ → List ℕ) (s : MonitorState) :
    (calculate_hrv sq d s).hrv_state = HrvState.ready ∨
    ((calculate_hrv sq d s).hrv_state = HrvState.idle ∧
      (calculate_hrv sq d s).stable_start_time = none) := by
  rw [calculate_hrv]
  split_ifs
  · left; rfl
  · right; exact ⟨rfl, rfl⟩

/-- From COLLECTING, a step that lands in IDLE always clears the anchor. -/
lemma coll_step_idle_anchor (sq : ℚ → ℚ) (d : List ℚ → List ℕ) (t : ℚ) (u : MonitorState)
    (hst : u.hrv_state = HrvState.collecting)
    (hvidle : (update_hrv_state sq d t u).hrv_state = HrvState.idle) :
    (update_hrv_state sq d t u).stable_start_time = none := by
  by_cases hb : 0 < u.bpm
  · cases hstart : u.hrv_start_time with
    | none =>
      exfalso
      have he := upd_coll_nostart sq d t u hst hb hstart
      rw [he, hst] at hvidle
      simp at hvidle
    | some st =>
      by_cases hd : HRV_DURATION ≤ t - st
      · have he := upd_coll_done sq d t u st hst hb hstart hd
        rw [he]
        rw [he] at hvidle
        rcases calculate_state_anchor sq d u with hr | ⟨_, hnone⟩
        · rw [hr] at hvidle; simp at hvidle
        · exact hnone
      · exfalso
        have he := upd_coll_wait sq d t u st hst hb hstart hd
        rw [he, hst] at hvidle
        simp at hvidle
  · have he := upd_coll_lost sq d t u hst hb
    rw [he]

/-- Anchor provenance: whenever a trace from an anchor-free start sits in
IDLE with a stability anchor `(t0, last_bpm)`, the trace splits at the cycle
that created the anchor (time `t0`, reference BPM `last_bpm`), and every
cycle after it stayed within 10% of that reference. -/
lemma anchor_origin (sq : ℚ → ℚ) (d : List ℚ → List ℕ) (s0 : MonitorState)
    (h0a : s0.stable_start_time = none) :
    ∀ (w : List (ℚ × ℚ)) (t0 : ℚ),
      (hrvRun sq d s0 w).hrv_state = HrvState.idle →
      (hrvRun sq d s0 w).stable_start_time = some t0 →
      ∃ w₁ w₂ r, w = w₁ ++ (t0, r) :: w₂ ∧ (hrvRun sq d s0 w).last_bpm = r ∧
        ∀ p ∈ w₂, |p.2 - r| < r * (1 / 10) := by
  intro w
  induction w using List.reverseRecOn with
  | nil =>
    intro t0 _ hanchor
    rw [hrvRun_nil, h0a] at hanchor
    exact absurd hanchor (by simp)
  | append_singleton l p ih =>
    intro t0 hidle hanchor
    rw [hrvRun_snoc] at hidle hanchor ⊢
    have hcyc : hrvCycle sq d (hrvRun sq d s0 l) p =
        update_hrv_state sq d p.1 { hrvRun sq d s0 l with bpm := p.2 } := rfl
    rw [hcyc] at hidle hanchor ⊢
    cases hust : (hrvRun sq d s0 l).hrv_state with
    | idle =>
      rcases idle_step_anchor sq d p.1 t0 { hrvRun sq d s0 l with bpm := p.2 } hust
          hanchor hidle with ⟨ht0, he⟩ | ⟨hanc, he, hw⟩
      · refine ⟨l, [], p.2, ?_, ?_, by simp⟩
        · rw [ht0]
        · rw [he]
      · rw [he]
        obtain ⟨w₁, w₂, r, hl, hr, hall⟩ := ih t0 hust hanc
        have hr2 : ({ hrvRun sq d s0 l with bpm := p.2 } : MonitorState).last_bpm = r := hr
        refine ⟨w₁, w₂ ++ [p], r, ?_, hr2, ?_⟩
        · rw [hl]
          simp
        · intro q hq
          rcases List.mem_append.mp hq with hq1 | hq2
          · exact hall q hq1
          · rw [List.mem_singleton.mp hq2]
            have hw2 : |p.2 - r| <
                r * (1 / 10) := by
              rw [← hr]
              exact hw
            exact hw2
    | collecting =>
      exfalso
      have hnone := coll_step_idle_anchor sq d p.1 { hrvRun sq d s0 l with bpm := p.2 }
        hust hidle
      rw [hnone] at hanchor
      exact absurd hanchor (by simp)
    | ready =>
      exfalso
      have he := upd_ready sq d p.1 { hrvRun sq d s0 l with bpm := p.2 } hust
      rw [he] at hidle
      rw [show ({ hrvRun sq d s0 l with bpm := p.2 } : MonitorState).hrv_state =
        (hrvRun sq d s0 l).hrv_state from rfl, hust] at hidle
      exact absurd hidle (by simp)

/-- A cycle with the same positive BPM as the anchored reference, less than
`HRV_MIN_STABLE_TIME` after the anchor, leaves the machine state unchanged. -/
lemma const_cycle (sq : ℚ → ℚ) (d : List ℚ → List ℕ) (c t0 t : ℚ) (hc : 0 < c)
    (u : MonitorState) (hust : u.hrv_state = HrvState.idle)
    (hanchor : u.stable_start_time = some t0) (hlast : u.last_bpm = c) (hbpm : u.bpm = c)
    (hd : t - t0 < HRV_MIN_STABLE_TIME) :
    hrvCycle sq d u (t, c) = u := by
  have hcyc : hrvCycle sq d u (t, c) = update_hrv_state sq d t { u with bpm := c } := rfl
  have hbeq : ({ u with bpm := c } : MonitorState) = u := by rw [← hbpm]
  rw [hcyc, hbeq]
  exact upd_idle_hold sq d t u t0 hust (by rw [hbpm]; exact hc) hanchor
    (by rw [hbpm, hlast, sub_self, abs_zero]; positivity) (not_le.mpr hd)

/-- Constant-BPM cycles inside the stability window followed by a
finger-loss cycle: the machine stays IDLE throughout and ends with the
anchor cleared. -/
lemma const_then_zero (sq : ℚ → ℚ) (d : List ℚ → List ℕ) (c t0 tz : ℚ) (hc : 0 < c) :
    ∀ (ts : List ℚ) (u : MonitorState), u.hrv_state = HrvState.idle →
      u.stable_start_time = some t0 → u.last_bpm = c → u.bpm = c →
      (∀ t ∈ ts, t - t0 < HRV_MIN_STABLE_TIME) →
      (∀ st ∈ List.scanl (hrvCycle sq d) u (ts.map (fun t => (t, c)) ++ [(tz, 0)]),
        st.hrv_state = HrvState.idle) ∧
      (hrvRun sq d u (ts.map (fun t => (t, c)) ++ [(tz, 0)])).hrv_state = HrvState.idle ∧
      (hrvRun sq d u (ts.map (fun t => (t, c)) ++ [(tz, 0)])).stable_start_time = none := by
  intro ts
  induction ts with
  | nil =>
    intro u hust hanchor hlast hbpm _
    have hcyc : hrvCycle sq d u (tz, 0) =
        update_hrv_state sq d tz { u with bpm := (0 : ℚ) } := rfl
    have hz := upd_idle_away sq d tz { u with bpm := (0 : ℚ) } hust (by simp)
    refine ⟨?_, ?_, ?_⟩
    · intro st hst
      simp only [List.map_nil, List.nil_append, List.scanl_cons, List.scanl_nil] at hst
      rcases List.mem_cons.mp hst with h1 | h2
      · rw [h1]; exact hust
      · rw [List.mem_singleton.mp h2, hcyc, hz]
        exact hust
    · show (hrvCycle sq d u (tz, 0)).hrv_state = HrvState.idle
      rw [hcyc, hz]
      exact hust
    · show (hrvCycle sq d u (tz, 0)).stable_start_time = none
      rw [hcyc, hz]
  | cons t ts' ih =>
    intro u hust hanchor hlast hbpm hts
    have hstep : hrvCycle sq d u (t, c) = u :=
      const_cycle sq d c t0 t hc u hust hanchor hlast hbpm (hts t (by simp))
    have hts' : ∀ x ∈ ts', x - t0 < HRV_MIN_STABLE_TIME := fun x hx => hts x (by simp [hx])
    obtain ⟨hscan, hstate, hanchor2⟩ := ih u hust hanchor hlast hbpm hts'
    refine ⟨?_, ?_, ?_⟩
    · intro st hst
      simp only [List.map_cons, List.cons_append, List.scanl_cons, hstep] at hst
      rcases List.mem_cons.mp hst with h1 | h2
      · rw [h1]; exact hust
      · exact hscan st h2
    · show (hrvRun sq d u ((t, c) :: (ts'.map (fun x => (x, c)) ++ [(tz, 0)]))).hrv_state =
        HrvState.idle
      rw [hrvRun, List.foldl_cons, hstep]
      exact hstate
    · show (hrvRun sq d u ((t, c) :: (ts'.map (fun x => (x, c)) ++ [(tz, 0)]))).stable_start_time =
        none
      rw [hrvRun, List.foldl_cons, hstep]
      exact hanchor2

/-- Claim C6 (confirmed): (1) from any anchor-free IDLE start, the HRV
machine enters COLLECTING only on a cycle at least `HRV_MIN_STABLE_TIME`
(2 s) after some earlier cycle that set the stability anchor with reference
BPM `r`, with the entering BPM and every intermediate BPM within 10% of `r`;
(2) in particular, if BPM holds exactly constant for cycles spanning less
than 2 s and then drops to 0, COLLECTING is never entered (every state along
the trace is IDLE) and the stability anchor ends up reset. -/
theorem claim_C6_thm :
    (∀ (sq : ℚ → ℚ) (d : List ℚ → List ℕ) (s0 : MonitorState) (w : List (ℚ × ℚ)) (t b : ℚ),
      s0.hrv_state = HrvState.idle → s0.stable_start_time = none →
      (hrvRun sq d s0 w).hrv_state = HrvState.idle →
      (hrvRun sq d s0 (w ++ [(t, b)])).hrv_state = HrvState.collecting →
      ∃ w₁ w₂ t0 r, w = w₁ ++ (t0, r) :: w₂ ∧ HRV_MIN_STABLE_TIME ≤ t - t0 ∧
        |b - r| < r * (1 / 10) ∧ ∀ p ∈ w₂, |p.2 - r| < r * (1 / 10)) ∧
    (∀ (sq : ℚ → ℚ) (d : List ℚ → List ℕ) (s0 : MonitorState) (c t0 tz : ℚ) (ts : List ℚ),
      s0.hrv_state = HrvState.idle → s0.stable_start_time = none → 0 < c →
      (∀ t ∈ ts, t - t0 < HRV_MIN_STABLE_TIME) →
      (∀ st ∈ List.scanl (hrvCycle sq d) s0
          ((t0, c) :: (ts.map (fun t => (t, c)) ++ [(tz, 0)])),
        st.hrv_state = HrvState.idle) ∧
      (hrvRun sq d s0 ((t0, c) :: (ts.map (fun t => (t, c)) ++ [(tz, 0)]))).hrv_state =
        HrvState.idle ∧
      (hrvRun sq d s0
          ((t0, c) :: (ts.map (fun t => (t, c)) ++ [(tz, 0)]))).stable_start_time = none) := by
  constructor
  · intro sq d s0 w t b h0s h0a hidle hcoll
    rw [hrvRun_snoc] at hcoll
    have hcyc : hrvCycle sq d (hrvRun sq d s0 w) (t, b) =
        update_hrv_state sq d t { hrvRun sq d s0 w with bpm := b } := rfl
    rw [hcyc] at hcoll
    obtain ⟨t0, hanch, _, hwithin, hdur⟩ :=
      idle_step_to_collecting sq d t { hrvRun sq d s0 w with bpm := b } hidle hcoll
    obtain ⟨w₁, w₂, r, hl, hr, hall⟩ := anchor_origin sq d s0 h0a w t0 hidle hanch
    refine ⟨w₁, w₂, t0, r, hl, hdur, ?_, hall⟩
    have : |b - r| < r * (1 / 10) := by
      rw [← hr]
      exact hwithin
    exact this
  · intro sq d s0 c t0 tz ts h0s h0a hc hts
    have hcyc : hrvCycle sq d s0 (t0, c) =
        update_hrv_state sq d t0 { s0 with bpm := c } := rfl
    have hA := upd_idle_fresh sq d t0 { s0 with bpm := c } h0s (by simp [hc]) h0a
    obtain ⟨hscan, hstate, hanchor⟩ := const_then_zero sq d c t0 tz hc ts
      (update_hrv_state sq d t0 { s0 with bpm := c })
      (by rw [hA]; exact h0s) (by rw [hA]) (by rw [hA]) (by rw [hA]) hts
    refine ⟨?_, ?_, ?_⟩
    · intro st hst
      rw [List.scanl_cons] at hst
      rcases List.mem_cons.mp hst with h1 | h2
      · rw [h1]; exact h0s
      · rw [hcyc] at h2
        exact hscan st h2
    · show (hrvRun sq d s0 ((t0, c) :: (ts.map (fun x => (x, c)) ++ [(tz, 0)]))).hrv_state =
        HrvState.idle
      rw [hrvRun, List.foldl_cons, hcyc]
      exact hstate
    · show (hrvRun sq d s0
          ((t0, c) :: (ts.map (fun x => (x, c)) ++ [(tz, 0)]))).stable_start_time = none
      rw [hrvRun, List.foldl_cons, hcyc]
      exact hanchor

/-- The state after one cycle with BPM 60 at time 0 from a fresh monitor:
IDLE with the stability anchor set. -/
def SA : MonitorState :=
  { initState with bpm := 60, stable_start_time := some 0, last_bpm := 60 }

/-- Witness for C6: a concrete entry into COLLECTING at time 2 after an
anchor at time 0 (part 1), and a concrete constant-BPM run of 1.5 s followed
by finger loss that never leaves IDLE and resets the anchor (part 2). -/
theorem claim_C6_witness :
    (∃ w₁ w₂ t0 r, [((0 : ℚ), (60 : ℚ))] = w₁ ++ (t0, r) :: w₂ ∧
      HRV_MIN_STABLE_TIME ≤ 2 - t0 ∧ |(60 : ℚ) - r| < r * (1 / 10) ∧
      ∀ p ∈ w₂, |p.2 - r| < r * (1 / 10)) ∧
    (hrvRun sqId dC initState
      ((0, 60) :: ([(1 : ℚ)].map (fun t => (t, 60)) ++ [(3 / 2, 0)]))).hrv_state =
        HrvState.idle ∧
    (hrvRun sqId dC initState
      ((0, 60) :: ([(1 : ℚ)].map (fun t => (t, 60)) ++ [(3 / 2, 0)]))).stable_start_time =
        none := by
  have eA : hrvCycle sqId dC initState ((0 : ℚ), (60 : ℚ)) = SA := by
    have hcyc : hrvCycle sqId dC initState ((0 : ℚ), (60 : ℚ)) =
        update_hrv_state sqId dC 0 { initState with bpm := (60 : ℚ) } := rfl
    rw [hcyc, upd_idle_fresh sqId dC 0 _ rfl (by norm_num [initState]) rfl]
    rfl
  have hidleA : (hrvRun sqId dC initState [((0 : ℚ), (60 : ℚ))]).hrv_state =
      HrvState.idle := by
    rw [hrvRun, List.foldl_cons, List.foldl_nil, eA]
    rfl
  have hcollA : (hrvRun sqId dC initState
      ([((0 : ℚ), (60 : ℚ))] ++ [((2 : ℚ), (60 : ℚ))])).hrv_state =
        HrvState.collecting := by
    rw [hrvRun_snoc, hrvRun, List.foldl_cons, List.foldl_nil, eA]
    have hcyc2 : hrvCycle sqId dC SA ((2 : ℚ), (60 : ℚ)) =
        update_hrv_state sqId dC 2 SA := rfl
    rw [hcyc2, upd_idle_start sqId dC 2 SA 0 rfl (by norm_num [SA, initState]) rfl
      (by norm_num [SA, initState]) (by norm_num [HRV_MIN_STABLE_TIME])]
  have hpartA := claim_C6_thm.1 sqId dC initState [((0 : ℚ), (60 : ℚ))] 2 60 rfl rfl
    hidleA hcollA
  have hpartB := claim_C6_thm.2 sqId dC initState 60 0 (3 / 2) [1] rfl rfl (by norm_num)
    (by
      intro t ht
      rw [List.mem_singleton.mp ht, HRV_MIN_STABLE_TIME]
      norm_num)
  exact ⟨hpartA, hpartB.2.1, hpartB.2.2⟩
